import Mathlib

/-!
Verification development for the recipe-app-api repository.

The repository ships its test suites (`src/app/core/tests`, `src/app/user/tests`,
`src/app/recipe/tests`, `src/app/app/tests.py`) together with the management
command `src/app/core/management/commands/wait_for_db.py`.  The Django models,
managers, serializers and views that the tests exercise are not part of the
shipped sources, so those operations are modelled here from the specification
(each such definition carries a doc comment starting `Modelled from the spec:`);
`wait_for_db.py` is embedded directly from its source.
-/

namespace RecipeApp

/-- Modelled from the spec: the `User` data-model row
(`core/models.py` is absent from `src/`).  Spec section 3: `User: {email
(unique, normalized lowercase domain), name, password (hashed), is_staff,
is_superuser}`.  The password hash is modelled as the password string itself;
only equality of hashes is ever observed. -/
structure User where
  id : Nat
  email : String
  name : String
  password : String
  is_staff : Bool
  is_superuser : Bool
deriving Repr, DecidableEq

/-- Helper for email normalisation: split a character list at its LAST `'@'`,
returning the part before it and the part after it, or `none` when no `'@'`
occurs.  This mirrors Python's `rsplit("@", 1)` used by the user manager. -/
def rsplitAmp : List Char → Option (List Char × List Char)
  | [] => none
  | c :: cs =>
    match rsplitAmp cs with
    | some (l, d) => some (c :: l, d)
    | none => if c = '@' then some ([], cs) else none

/-- Modelled from the spec: `normalize_email` of the user manager
(`core/models.py` is absent from `src/`).  Spec section 8: "Creating a user
normalizes the email's domain portion to lowercase."  The domain portion is
everything after the last `'@'`; an email with no `'@'` is left unchanged. -/
def normalize_email (email : String) : String :=
  match rsplitAmp email.data with
  | some (l, d) => String.mk (l ++ '@' :: d.map Char.toLower)
  | none => email

/-- Modelled from the spec: `create_user` of the user-manager factory
(`core/models.py` is absent from `src/`).  Spec section 3: "Created via a
user-manager factory requiring non-empty email"; spec section 8: "empty email
raises an error".  The raised `ValueError` is modelled as `Except.error`;
success appends the new row to the user store. -/
def create_user (email password name : String) (users : List User) :
    Except String (User × List User) :=
  if email = "" then Except.error "Users must have an email address"
  else
    let u : User :=
      { id := users.length
        email := normalize_email email
        name := name
        password := password
        is_staff := false
        is_superuser := false }
    Except.ok (u, users ++ [u])

/-- The email stored by a successful `create_user` call, `none` on error. -/
def createdEmail (email password : String) (users : List User) : Option String :=
  match create_user email password "" users with
  | Except.ok (u, _) => some u.email
  | Except.error _ => none

theorem rsplitAmp_eq_none {cs : List Char} (h : '@' ∉ cs) :
    rsplitAmp cs = none := by
  induction cs with
  | nil => rfl
  | cons c cs ih =>
    have hc : c ≠ '@' := fun hc => h (hc ▸ List.mem_cons_self c cs)
    have hcs : '@' ∉ cs := fun hm => h (List.mem_cons_of_mem c hm)
    simp [rsplitAmp, ih hcs, hc]

theorem rsplitAmp_append {l d : List Char} (hd : '@' ∉ d) :
    rsplitAmp (l ++ '@' :: d) = some (l, d) := by
  induction l with
  | nil => simp [rsplitAmp, rsplitAmp_eq_none hd]
  | cons c l ih => simp [rsplitAmp, ih]

/-- C5: an email of the form `local@domain` (non-empty local part, a single
`'@'`) is stored with the domain lowercased and the local part unchanged, and
the empty email is rejected with an error, creating no user. -/
theorem create_user_email_spec :
    (∀ (loc d pw : String) (users : List User),
        loc ≠ "" → '@' ∉ loc.data → '@' ∉ d.data →
        createdEmail (loc ++ "@" ++ d) pw users =
          some (loc ++ "@" ++ String.mk (d.data.map Char.toLower))) ∧
    (∀ (pw : String) (users : List User),
        create_user "" pw "" users =
          Except.error "Users must have an email address") := by
  constructor
  · intro loc d pw users _ _ hd
    have hdata : (loc ++ "@" ++ d).data = loc.data ++ '@' :: d.data := by
      simp [String.data_append]
    have hne : loc ++ "@" ++ d ≠ "" := by
      intro h
      have : (loc ++ "@" ++ d).data = ([] : List Char) := by rw [h]
      rw [hdata] at this
      exact absurd this (by simp)
    have hsplit : rsplitAmp ((loc ++ "@" ++ d).data) = some (loc.data, d.data) := by
      rw [hdata]; exact rsplitAmp_append hd
    have hrhs : (loc ++ "@" ++ String.mk (d.data.map Char.toLower)).data =
        loc.data ++ '@' :: d.data.map Char.toLower := by
      simp [String.data_append]
    unfold createdEmail create_user
    simp only [hne, if_neg, ite_false]
    unfold normalize_email
    rw [hsplit]
    congr 1
    apply String.ext
    rw [hrhs]
  · intro pw users
    rfl

/-- Witness for C5 at `'Test2@Example.com'` and the empty email. -/
theorem create_user_email_spec_witness :
    createdEmail "Test2@Example.com" "sample123" [] = some "Test2@example.com" ∧
    create_user "" "sample123" "" [] =
      Except.error "Users must have an email address" := by
  constructor
  · have h := create_user_email_spec.1 "Test2" "Example.com" "sample123" []
      (by decide) (by decide) (by decide)
    have e1 : ("Test2" : String) ++ "@" ++ "Example.com" = "Test2@Example.com" := by
      decide
    have e2 : ("Test2" : String) ++ "@" ++
        String.mk (("Example.com" : String).data.map Char.toLower) =
        "Test2@example.com" := by decide
    rw [e1, e2] at h
    exact h
  · exact create_user_email_spec.2 "sample123" []

/-- Modelled from the spec: the `Tag` and `Ingredient` data-model rows
(`core/models.py` is absent from `src/`).  Spec section 3: `Tag: {name, user
(owner)}` and `Ingredient: ... Same shape as Tag`; a single `Label` structure
models both kinds, with the owner recorded as the owning user's id. -/
structure Label where
  id : Nat
  user : Nat
  name : String
deriving Repr, DecidableEq

/-- A tag row (spec: same shape as an ingredient row). -/
abbrev Tag := Label

/-- An ingredient row (spec: same shape as a tag row). -/
abbrev Ingredient := Label

/-- Modelled from the spec: the `Recipe` data-model row (`core/models.py` is
absent from `src/`).  Spec section 3: `Recipe: {title, time_minutes (int),
price (decimal), description, link, user (owner, required)}. Many-to-many with
Tag and Ingredient.`  The decimal price is modelled as an integer number of
cents; the many-to-many links are the lists of linked label ids. -/
structure Recipe where
  id : Nat
  user : Nat
  title : String
  time_minutes : Nat
  price : Int
  description : String
  link : String
  tags : List Nat
  ingredients : List Nat
deriving Repr, DecidableEq

/-- Modelled from the spec: `Recipe.__str__` (`core/models.py` is absent from
`src/`).  Spec section 3: "String representation is its title." -/
def Recipe.str (r : Recipe) : String := r.title

/-- Modelled from the spec: `Tag.__str__` and `Ingredient.__str__`
(`core/models.py` is absent from `src/`).  Spec section 3: "String
representation is its name." -/
def Label.str (l : Label) : String := l.name

/-- C6: the string representation of a recipe is its title, and the string
representation of a tag or of an ingredient is its name. -/
theorem str_repr_spec :
    (∀ r : Recipe, r.str = r.title) ∧
    (∀ t : Tag, t.str = t.name) ∧
    (∀ i : Ingredient, i.str = i.name) :=
  ⟨fun _ => rfl, fun _ => rfl, fun _ => rfl⟩

/-- Modelled from the spec: `add` of the module `app/calc.py`, which is absent
from `src/` (only its test `src/app/app/tests.py` is present) and which the
spec does not mention; modelled as integer addition, the behaviour pinned by
`CalcTest.test_add_numbers`. -/
def calc_add (a b : Int) : Int := a + b

/-- Modelled from the spec: `subtract` of the absent module `app/calc.py`;
modelled as integer subtraction, the behaviour pinned by
`CalcTest.test_subtract_numbers`. -/
def calc_subtract (a b : Int) : Int := a - b

/-- C10: `calc.add` adds and `calc.subtract` subtracts, with the values pinned
by the tests: `add(5, 6) = 11` and `subtract(10, 6) = 4`. -/
theorem calc_spec :
    (∀ a b : Int, calc_add a b = a + b ∧ calc_subtract a b = a - b) ∧
    calc_add 5 6 = 11 ∧ calc_subtract 10 6 = 4 :=
  ⟨fun _ _ => ⟨rfl, rfl⟩, rfl, rfl⟩

/-- Whether a serialized response body (a key-value list) contains a key. -/
def hasKey (k : String) (body : List (String × String)) : Bool :=
  body.any (fun p => p.1 == k)

/-- Modelled from the spec: the obtain-token endpoint (`user/serializers.py`
and `user/views.py` are absent from `src/`).  Spec section 4.1: "obtain-token
(POST, validates credentials, returns 200 with token or 400 on failure —
including blank password)"; the token is an opaque string tied to the user.
A blank password fails field validation before credentials are checked. -/
def create_token (email password : String) (users : List User) :
    Nat × List (String × String) :=
  if password = "" then
    (400, [("password", "This field may not be blank.")])
  else
    match users.find? (fun u => u.email == email && u.password == password) with
    | some u => (200, [("token", "token-" ++ toString u.id)])
    | none =>
      (400, [("non_field_errors", "Unable to authenticate with provided credentials.")])

/-- C3: posting matching credentials to the token endpoint yields 200 with a
`token` key in the body; a wrong password for the email, or a blank password,
yields 400 with no `token` key. -/
theorem create_token_spec (users : List User) (email pw : String) :
    ((∃ u ∈ users, u.email = email ∧ u.password = pw) → pw ≠ "" →
        (create_token email pw users).1 = 200 ∧
        hasKey "token" (create_token email pw users).2 = true) ∧
    ((∀ u ∈ users, u.email = email → u.password ≠ pw) →
        (create_token email pw users).1 = 400 ∧
        hasKey "token" (create_token email pw users).2 = false) ∧
    (pw = "" →
        (create_token email pw users).1 = 400 ∧
        hasKey "token" (create_token email pw users).2 = false) := by
  refine ⟨?_, ?_, ?_⟩
  · rintro ⟨u, hu, he, hp⟩ hne
    have hfind : (users.find? (fun v => v.email == email && v.password == pw)).isSome := by
      rw [List.find?_isSome]
      exact ⟨u, hu, by simp [he, hp]⟩
    unfold create_token
    rw [if_neg hne]
    cases hcase : users.find? (fun v => v.email == email && v.password == pw) with
    | none => rw [hcase] at hfind; simp at hfind
    | some v => simp [hasKey]
  · intro hno
    have hfind : users.find? (fun v => v.email == email && v.password == pw) = none := by
      rw [List.find?_eq_none]
      intro v hv
      simp only [Bool.and_eq_true, beq_iff_eq, not_and]
      exact fun he => hno v hv he
    unfold create_token
    by_cases hpw : pw = ""
    · rw [if_pos hpw]; simp [hasKey]
    · rw [if_neg hpw, hfind]; simp [hasKey]
  · intro hpw
    unfold create_token
    rw [if_pos hpw]
    simp [hasKey]

/-- Witness for C3: a stored user, the right password, a wrong password, and a
blank password, each at a concrete store. -/
theorem create_token_spec_witness :
    ((create_token "a@e.com" "goodpass" [User.mk 1 "a@e.com" "n" "goodpass" false false]).1 = 200 ∧
      hasKey "token" (create_token "a@e.com" "goodpass" [User.mk 1 "a@e.com" "n" "goodpass" false false]).2 = true) ∧
    ((create_token "a@e.com" "badpass" [User.mk 1 "a@e.com" "n" "goodpass" false false]).1 = 400 ∧
      hasKey "token" (create_token "a@e.com" "badpass" [User.mk 1 "a@e.com" "n" "goodpass" false false]).2 = false) ∧
    ((create_token "a@e.com" "" [User.mk 1 "a@e.com" "n" "goodpass" false false]).1 = 400 ∧
      hasKey "token" (create_token "a@e.com" "" [User.mk 1 "a@e.com" "n" "goodpass" false false]).2 = false) := by
  refine ⟨?_, ?_, ?_⟩
  · exact (create_token_spec [User.mk 1 "a@e.com" "n" "goodpass" false false]
      "a@e.com" "goodpass").1
      ⟨User.mk 1 "a@e.com" "n" "goodpass" false false, by decide, rfl, rfl⟩ (by decide)
  · exact (create_token_spec [User.mk 1 "a@e.com" "n" "goodpass" false false]
      "a@e.com" "badpass").2.1 (by decide)
  · exact (create_token_spec [User.mk 1 "a@e.com" "n" "goodpass" false false]
      "a@e.com" "").2.2 rfl

/-- Modelled from the spec: the user-create endpoint (`user/serializers.py`
and `user/views.py` are absent from `src/`).  Spec section 4.1: "create (POST,
public, validates email uniqueness and password length ≥ 5 chars, returns 201
without password field)"; spec section 8: "POST with password length < 5 →
400, and no user record is created."  Returns the response (status, body) and
the user store after the request. -/
def create_user_api (email password name : String) (users : List User) :
    (Nat × List (String × String)) × List User :=
  if password.length < 5 then
    ((400, [("password", "Ensure this field has at least 5 characters.")]), users)
  else if users.any (fun u => u.email == normalize_email email) then
    ((400, [("email", "user with this email already exists.")]), users)
  else
    match create_user email password name users with
    | Except.ok (u, users') => ((201, [("email", u.email), ("name", u.name)]), users')
    | Except.error e => ((400, [("email", e)]), users)

/-- C9 model.  Modelled from the spec: the authenticated "me" endpoint
(`user/serializers.py` and `user/views.py` are absent from `src/`).  Spec
section 4.1: "retrieve/update self (GET/PATCH on 'me', requires auth token,
401 if absent)"; the serialized body holds the user's email and name only, as
pinned by `PrivateUserAPITest.test_retrieve_profile_success`. -/
def me_get (auth : Option Nat) (users : List User) : Nat × List (String × String) :=
  match auth with
  | none => (401, [("detail", "Authentication credentials were not provided.")])
  | some uid =>
    match users.find? (fun u => u.id == uid) with
    | some u => (200, [("email", u.email), ("name", u.name)])
    | none => (401, [("detail", "Invalid token.")])

/-- C4: a user-create request whose password is shorter than 5 characters gets
status 400, leaves the user store unchanged, and in particular creates no user
with the payload's email. -/
theorem create_user_api_short_password (email pw name : String)
    (users : List User) (h : pw.length < 5) :
    (create_user_api email pw name users).1.1 = 400 ∧
    (create_user_api email pw name users).2 = users ∧
    ((∀ u ∈ users, u.email ≠ email) →
      ∀ u ∈ (create_user_api email pw name users).2, u.email ≠ email) := by
  unfold create_user_api
  rw [if_pos h]
  exact ⟨rfl, rfl, fun hno => hno⟩

/-- Witness for C4 at the test's payload (password `'tes'`). -/
theorem create_user_api_short_password_witness :
    (create_user_api "test@example.com" "tes" "testname" []).1.1 = 400 ∧
    (create_user_api "test@example.com" "tes" "testname" []).2 = [] := by
  have h := create_user_api_short_password "test@example.com" "tes" "testname" []
    (by decide)
  exact ⟨h.1, h.2.1⟩

/-- C9: an authenticated GET on the "me" endpoint returns 200 with the body
exactly `{email, name}` of the requesting user — no password, id, or
staff/superuser flags appear among the keys. -/
theorem me_get_profile (uid : Nat) (users : List User) (u : User)
    (h : users.find? (fun v => v.id == uid) = some u) :
    me_get (some uid) users = (200, [("email", u.email), ("name", u.name)]) ∧
    hasKey "password" (me_get (some uid) users).2 = false ∧
    hasKey "id" (me_get (some uid) users).2 = false ∧
    hasKey "is_staff" (me_get (some uid) users).2 = false ∧
    hasKey "is_superuser" (me_get (some uid) users).2 = false := by
  simp [me_get, h, hasKey]

/-- Witness for C9 at a one-user store. -/
theorem me_get_profile_witness :
    me_get (some 1) [User.mk 1 "test@example.com" "testname" "testpassword" false false] =
      (200, [("email", "test@example.com"), ("name", "testname")]) ∧
    hasKey "password"
      (me_get (some 1)
        [User.mk 1 "test@example.com" "testname" "testpassword" false false]).2 = false := by
  have h := me_get_profile 1
    [User.mk 1 "test@example.com" "testname" "testpassword" false false]
    (User.mk 1 "test@example.com" "testname" "testpassword" false false) (by decide)
  exact ⟨h.1, h.2.1⟩

deriving instance DecidableEq for Except

/-- Descending order on labels by name: earlier entries have the larger name.
Names are compared lexicographically through their character lists (the same
order as the one on `String`, phrased so that it computes). -/
def labelDescOrder (a b : Label) : Prop := b.name.data ≤ a.name.data

instance : DecidableRel labelDescOrder := fun a b =>
  inferInstanceAs (Decidable (b.name.data ≤ a.name.data))

instance : IsTotal Label labelDescOrder :=
  ⟨fun a b => le_total b.name.data a.name.data⟩

instance : IsTrans Label labelDescOrder :=
  ⟨fun _ _ _ hab hbc => le_trans hbc hab⟩

/-- Modelled from the spec: the tag/ingredient list endpoint
(`recipe/views.py` and `recipe/serializers.py` are absent from `src/`).  Spec
section 4.2: "List (GET, owner-scoped, ordered by name descending), ... filter
by `assigned_only=1` (restrict to entities linked to at least one recipe,
de-duplicated).  All require authentication (401 if absent)."  Both the Tag
and the Ingredient API share this behaviour; `links` projects a recipe to the
ids of the labels of the relevant kind linked to it (`Recipe.tags` or
`Recipe.ingredients`). -/
def list_labels (auth : Option Nat) (assigned_only : Bool)
    (labels : List Label) (recipes : List Recipe) (links : Recipe → List Nat) :
    Except Nat (List Label) :=
  match auth with
  | none => Except.error 401
  | some uid =>
    let base := if assigned_only then
        labels.filter (fun l => recipes.any (fun r => (links r).contains l.id))
      else labels
    Except.ok (List.insertionSort labelDescOrder (base.filter (fun l => l.user == uid)))

theorem list_labels_mem {uid : Nat} {ao : Bool} {labels : List Label}
    {recipes : List Recipe} {links : Recipe → List Nat} {out : List Label}
    (h : list_labels (some uid) ao labels recipes links = Except.ok out)
    {l : Label} (hl : l ∈ out) :
    l ∈ labels ∧ l.user = uid := by
  have hout : out = List.insertionSort labelDescOrder
      (((if ao then
          labels.filter (fun l => recipes.any (fun r => (links r).contains l.id))
        else labels)).filter (fun l => l.user == uid)) := by
    have := h.symm
    simpa [list_labels] using this
  rw [hout, List.mem_insertionSort, List.mem_filter] at hl
  refine ⟨?_, by simpa using hl.2⟩
  rcases hl with ⟨hbase, _⟩
  by_cases hao : ao
  · rw [if_pos hao] at hbase
    exact (List.mem_filter.mp hbase).1
  · rw [if_neg hao] at hbase
    exact hbase

/-- C1: every label in an authenticated tag/ingredient list response is owned
by the requesting user; another user's labels never appear. -/
theorem list_labels_owner_scoped (uid : Nat) (ao : Bool) (labels : List Label)
    (recipes : List Recipe) (links : Recipe → List Nat) (out : List Label)
    (h : list_labels (some uid) ao labels recipes links = Except.ok out) :
    ∀ l ∈ out, l.user = uid :=
  fun _ hl => (list_labels_mem h hl).2

/-- Witness for C1: two users' tags in the store; the entry of the response
computed for user 1 is owned by user 1. -/
theorem list_labels_owner_scoped_witness :
    list_labels (some 1) false [Label.mk 1 1 "C", Label.mk 2 2 "F"] []
      Recipe.tags = Except.ok [Label.mk 1 1 "C"] ∧
    (Label.mk 1 1 "C").user = 1 := by
  refine ⟨rfl, ?_⟩
  exact list_labels_owner_scoped 1 false [Label.mk 1 1 "C", Label.mk 2 2 "F"] []
    Recipe.tags [Label.mk 1 1 "C"] rfl (Label.mk 1 1 "C") (by decide)

/-- C7: an authenticated tag/ingredient list response without filters is
ordered by name in descending order. -/
theorem list_labels_sorted_desc (uid : Nat) (labels : List Label)
    (recipes : List Recipe) (links : Recipe → List Nat) (out : List Label)
    (h : list_labels (some uid) false labels recipes links = Except.ok out) :
    List.Sorted labelDescOrder out := by
  have hout : out = List.insertionSort labelDescOrder
      (labels.filter (fun l => l.user == uid)) := by
    simpa [list_labels] using h.symm
  rw [hout]
  exact List.sorted_insertionSort labelDescOrder _

/-- Witness for C7: two tags named `A` and `B` come back as `B` then `A`. -/
theorem list_labels_sorted_desc_witness :
    List.Sorted labelDescOrder [Label.mk 2 1 "B", Label.mk 1 1 "A"] :=
  list_labels_sorted_desc 1 [Label.mk 1 1 "A", Label.mk 2 1 "B"] []
    Recipe.tags [Label.mk 2 1 "B", Label.mk 1 1 "A"] (by decide)

/-- C2: with `assigned_only=1`, the authenticated list response holds exactly
the requesting user's labels that are linked to at least one recipe, and (for
a duplicate-free label table) each such label appears exactly once, however
many recipes link it. -/
theorem list_labels_assigned_only (uid : Nat) (labels : List Label)
    (recipes : List Recipe) (links : Recipe → List Nat) (out : List Label)
    (h : list_labels (some uid) true labels recipes links = Except.ok out) :
    (∀ l : Label, l ∈ out ↔
        (l ∈ labels ∧ l.user = uid ∧ ∃ r ∈ recipes, l.id ∈ links r)) ∧
    (labels.Nodup → ∀ l ∈ out, out.count l = 1) := by
  have hout : out = List.insertionSort labelDescOrder
      ((labels.filter
          (fun l => recipes.any (fun r => (links r).contains l.id))).filter
        (fun l => l.user == uid)) := by
    simpa [list_labels] using h.symm
  constructor
  · intro l
    rw [hout, List.mem_insertionSort, List.mem_filter, List.mem_filter]
    simp only [beq_iff_eq, List.any_eq_true, List.contains, List.elem_iff]
    tauto
  · intro hnd l hl
    have hnd2 : ((labels.filter
        (fun l => recipes.any (fun r => (links r).contains l.id))).filter
          (fun l => l.user == uid)).Nodup :=
      (hnd.filter _).filter _
    rw [hout]
    rw [hout] at hl
    rw [(List.perm_insertionSort labelDescOrder _).count_eq]
    rw [(List.perm_insertionSort labelDescOrder _).mem_iff] at hl
    exact List.count_eq_one_of_mem hnd2 hl

/-- Witness for C2: one tag linked from two recipes and one unlinked tag; the
linked tag is listed, the unlinked one is not, and the linked one exactly
once. -/
theorem list_labels_assigned_only_witness :
    ((Label.mk 1 1 "F") ∈ [Label.mk 1 1 "F"] ∧
      (Label.mk 2 1 "B") ∉ [Label.mk 1 1 "F"]) ∧
    List.count (Label.mk 1 1 "F") [Label.mk 1 1 "F"] = 1 := by
  have h := list_labels_assigned_only 1 [Label.mk 1 1 "F", Label.mk 2 1 "B"]
    [Recipe.mk 1 1 "Eggs Benedict" 32 240 "" "" [1] [],
     Recipe.mk 2 1 "Eggs in herbs" 32 240 "" "" [1] []]
    Recipe.tags [Label.mk 1 1 "F"] rfl
  refine ⟨⟨?_, ?_⟩, ?_⟩
  · exact (h.1 (Label.mk 1 1 "F")).mpr
      ⟨by decide, rfl,
        ⟨Recipe.mk 1 1 "Eggs Benedict" 32 240 "" "" [1] [], by decide, by decide⟩⟩
  · intro hmem
    have := (h.1 (Label.mk 2 1 "B")).mp hmem
    rcases this with ⟨_, _, r, hr, hlink⟩
    have : r = Recipe.mk 1 1 "Eggs Benedict" 32 240 "" "" [1] [] ∨
        r = Recipe.mk 2 1 "Eggs in herbs" 32 240 "" "" [1] [] := by
      simpa using hr
    rcases this with h1 | h1 <;> rw [h1] at hlink <;>
      exact absurd hlink (by decide)
  · exact h.2 (by decide) (Label.mk 1 1 "F") (by decide)

/-- The body of the `while db_up is False` loop of `Command.handle` in
`src/app/core/management/commands/wait_for_db.py`, embedded with explicit
fuel.  `check i` tells whether the `i`-th connectivity check (`self.check`)
succeeds (`true`) or raises `OperationalError`/`Psycopg2Error` (`false`); the
successor attempts are the shifted check function.  The result collects the
number of checks performed, the number of `time.sleep(1)` calls, and the
stdout lines written from inside the loop onwards; `none` means the loop was
still running when the fuel ran out. -/
def waitLoop (check : Nat → Bool) : Nat → Option (Nat × Nat × List String)
  | 0 => none
  | fuel + 1 =>
    if check 0 then some (1, 0, ["Database available!"])
    else
      (waitLoop (fun n => check (n + 1)) fuel).map
        (fun r => (r.1 + 1, r.2.1 + 1,
          "Database unavailable, waiting for 1 sec..." :: r.2.2))

/-- Entry point `Command.handle` of `wait_for_db.py`: writes the initial
status line, then runs the polling loop. -/
def wait_for_db_handle (check : Nat → Bool) (fuel : Nat) :
    Option (Nat × Nat × List String) :=
  (waitLoop check fuel).map
    (fun r => (r.1, r.2.1, "Waiting for database connection..." :: r.2.2))

theorem waitLoop_none (check : Nat → Bool) (hall : ∀ n, check n = false) :
    ∀ fuel, waitLoop check fuel = none := by
  intro fuel
  induction fuel generalizing check with
  | zero => rfl
  | succ f ih =>
    simp only [waitLoop, hall 0, Bool.false_eq_true, if_false]
    rw [ih (fun n => check (n + 1)) (fun n => hall (n + 1))]
    rfl

theorem waitLoop_first_success (k : Nat) :
    ∀ (check : Nat → Bool), check k = true → (∀ j, j < k → check j = false) →
    ∀ fuel, k < fuel →
      waitLoop check fuel =
        some (k + 1, k,
          List.replicate k "Database unavailable, waiting for 1 sec..." ++
            ["Database available!"]) := by
  induction k with
  | zero =>
    intro check hk _ fuel hfuel
    match fuel, hfuel with
    | f + 1, _ => simp [waitLoop, hk]
  | succ k ih =>
    intro check hk hlt fuel hfuel
    match fuel, hfuel with
    | f + 1, hfuel =>
      have h0 : check 0 = false := hlt 0 (Nat.succ_pos k)
      have hrec := ih (fun n => check (n + 1)) hk
        (fun j hj => hlt (j + 1) (Nat.succ_lt_succ hj)) f
        (Nat.lt_of_succ_lt_succ hfuel)
      simp only [waitLoop, h0, Bool.false_eq_true, if_false, hrec, Option.map_some]
      simp [List.replicate_succ]

/-- C8: `wait_for_db` polls the database; when the first successful
connectivity check is check number `k` (zero-based, after `k` failures), the
command terminates having performed exactly `k + 1` checks and `k` one-second
sleeps, and its stdout is the waiting line, one unavailability line per
failure, and the success line; when every check fails it never terminates
(no fuel bound suffices). -/
theorem wait_for_db_spec (check : Nat → Bool) :
    (∀ k, check k = true → (∀ j, j < k → check j = false) →
        ∀ fuel, k < fuel →
          wait_for_db_handle check fuel =
            some (k + 1, k,
              "Waiting for database connection..." ::
                (List.replicate k "Database unavailable, waiting for 1 sec..." ++
                  ["Database available!"]))) ∧
    ((∀ n, check n = false) → ∀ fuel, wait_for_db_handle check fuel = none) := by
  constructor
  · intro k hk hlt fuel hfuel
    unfold wait_for_db_handle
    rw [waitLoop_first_success k check hk hlt fuel hfuel]
    rfl
  · intro hall fuel
    unfold wait_for_db_handle
    rw [waitLoop_none check hall fuel]
    rfl

/-- Witness for C8: a check that first succeeds on attempt 1 (zero-based)
terminates with 2 checks, 1 sleep and three stdout lines; a check that always
fails exhausts any fuel. -/
theorem wait_for_db_spec_witness :
    wait_for_db_handle (fun n => n == 1) 3 =
      some (2, 1,
        "Waiting for database connection..." ::
          (List.replicate 1 "Database unavailable, waiting for 1 sec..." ++
            ["Database available!"])) ∧
    wait_for_db_handle (fun _ => false) 5 = none := by
  constructor
  · exact (wait_for_db_spec (fun n => n == 1)).1 1 rfl (by decide) 3 (by decide)
  · exact (wait_for_db_spec (fun _ => false)).2 (fun _ => rfl) 5

end RecipeApp
